import Mathlib

/-!
# Verification of the libagentmetrics usage-telemetry and alerting engine

Shallow embedding of the Go sources of `Rafiki81/libagentmetrics`
(`monitor/cost.go`, `monitor/alerts.go`, `monitor/tokens.go`, `agent/types.go`)
together with proofs about the claims of the specification.

Modelling conventions:
* Go `float64` values are modelled as `ℚ` (the program only ever combines
  them with field operations and comparisons; rounding behaviour is not the
  subject of any claim).
* Go `int`/`int64` are modelled as `ℤ`.  Go integer division truncates
  toward zero, which is `Int.tdiv`.
* Go `time.Time` instants are modelled as `ℤ` nanoseconds since the epoch,
  with `0` playing the role of the zero `time.Time` (`IsZero`).
  `time.Duration` values are `ℤ` nanoseconds.
* Go maps are modelled as association lists; insertion conses a fresh pair
  in front, and lookup takes the first hit, which matches the overwrite
  semantics of a Go map for every observation the program makes.
* Go strings are byte strings.  All strings handled by the program are
  ASCII, so they are modelled as Lean `String`s; where the Go code works on
  raw bytes (`cost.go`'s `containsSubstr`) we view a string as its list of
  code points, which coincides with its list of bytes on ASCII data.
-/

/-- One nanosecond-count per minute (`time.Minute`). -/
def nsPerMinute : Int := 60000000000

/-- One nanosecond-count per second (`time.Second`). -/
def nsPerSecond : Int := 1000000000

/-- Association-list lookup, mirroring a Go map read (`v, ok := m[k]`). -/
def goLookup {α β : Type} [DecidableEq α] (k : α) : List (α × β) → Option β
  | [] => none
  | kv :: rest => if kv.1 = k then some kv.2 else goLookup k rest

/-- Association-list insert, mirroring a Go map write (`m[k] = v`).
Newer entries shadow older ones for `goLookup`. -/
def goInsert {α β : Type} (k : α) (v : β) (m : List (α × β)) : List (α × β) :=
  (k, v) :: m

/-! ## `agent/types.go`: data model -/

/-- `agent.TokenSource` (`types.go`): how token data was obtained. -/
inductive TokenSource where
  | none
  | log
  | db
  | network
  | estimated
  | localAPI
deriving DecidableEq

/-- `agent.AlertLevel` (`types.go`). -/
inductive AlertLevel where
  | info
  | warning
  | critical
  | security
deriving DecidableEq

/-- `agent.TokenMetrics` (`types.go`): token usage data for an agent. -/
structure TokenMetrics where
  InputTokens : Int := 0
  OutputTokens : Int := 0
  TotalTokens : Int := 0
  TokensPerSec : ℚ := 0
  RequestCount : Int := 0
  LastModel : String := ""
  Source : TokenSource := .none
  Confidence : ℚ := 0
  LastRequestAt : Int := 0
  EstCost : ℚ := 0
  AvgLatencyMs : Int := 0
deriving DecidableEq

/-- `agent.Alert` (`types.go`). -/
structure Alert where
  Timestamp : Int
  Level : AlertLevel
  AgentID : String
  AgentName : String
  Message : String
deriving DecidableEq

/-! ## `monitor/cost.go`: pricing table and cost resolver -/

/-- `monitor.ModelPricing` (`cost.go`): USD per 1M tokens. -/
structure ModelPricing where
  InputPer1M : ℚ
  OutputPer1M : ℚ
deriving DecidableEq

/-- `monitor.ModelPrices` (`cost.go`), in source order.  The Go value is a
map; iteration order only matters for ties between equally long substring
matches, and every theorem below is stated so that it holds for any
iteration order. -/
def ModelPrices : List (String × ModelPricing) :=
  [("gpt-4o", ⟨2.50, 10.00⟩),
   ("gpt-4o-mini", ⟨0.15, 0.60⟩),
   ("gpt-4-turbo", ⟨10.00, 30.00⟩),
   ("gpt-4", ⟨30.00, 60.00⟩),
   ("gpt-3.5-turbo", ⟨0.50, 1.50⟩),
   ("o1", ⟨15.00, 60.00⟩),
   ("o1-mini", ⟨3.00, 12.00⟩),
   ("o1-pro", ⟨150.00, 600.00⟩),
   ("o3", ⟨10.00, 40.00⟩),
   ("o3-mini", ⟨1.10, 4.40⟩),
   ("codex", ⟨3.00, 12.00⟩),
   ("claude-opus-4", ⟨15.00, 75.00⟩),
   ("claude-sonnet-4", ⟨3.00, 15.00⟩),
   ("claude-3.5-sonnet", ⟨3.00, 15.00⟩),
   ("claude-3-opus", ⟨15.00, 75.00⟩),
   ("claude-3-sonnet", ⟨3.00, 15.00⟩),
   ("claude-3-haiku", ⟨0.25, 1.25⟩),
   ("claude-3.5-haiku", ⟨0.80, 4.00⟩),
   ("gemini-2.0-flash", ⟨0.10, 0.40⟩),
   ("gemini-1.5-pro", ⟨1.25, 5.00⟩),
   ("gemini-1.5-flash", ⟨0.075, 0.30⟩),
   ("default", ⟨1.00, 3.00⟩)]

/-- The bytes of a Go string.  All strings compared by `cost.go` are ASCII,
where the UTF-8 bytes are exactly the code points. -/
def goBytes (s : String) : List Nat := s.data.map Char.toNat

/-- One byte comparison of `containsSubstr` (`cost.go`): the Go code treats
`a` and `b` as equal when `a == b`, `a == b+32` or `a == b-32`, computed on
wrapping `uint8` values. -/
def byteFoldEq (a b : Nat) : Bool :=
  a == b || a == (b + 32) % 256 || a == (b + 224) % 256

/-- The inner loop of `containsSubstr` (`cost.go`): does `sub` match at the
head of `s`, byte by byte, up to ASCII case? -/
def matchesAt : List Nat → List Nat → Bool
  | _, [] => true
  | [], _ :: _ => false
  | a :: s, b :: sub => byteFoldEq a b && matchesAt s sub

/-- `monitor.containsSubstr` (`cost.go`): case-insensitive substring search
of `sub` inside `s`.  The Go loop bound `i <= len(s)-len(substr)` is over
Go ints; when `s` is shorter than `sub` the loop body never runs. -/
def containsSubstr (s sub : List Nat) : Bool :=
  if sub.length = 0 then false
  else if s.length < sub.length then false
  else (List.range (s.length - sub.length + 1)).any fun i => matchesAt (s.drop i) sub

/-- `containsSubstr` on two Go strings. -/
def goStrContains (s sub : String) : Bool :=
  containsSubstr (goBytes s) (goBytes sub)

/-- `ModelPrices[key]` for a key known to be present; the `"default"` entry
is used as the (unreachable) fallback of the association-list read. -/
def priceOf (k : String) : ModelPricing :=
  (goLookup k ModelPrices).getD ⟨1.00, 3.00⟩

/-- Whether a pricing-table key participates in the substring scan of
`FindPricing` for `model`: it matches in either direction. -/
def keyMatches (model : List Nat) (key : String) : Bool :=
  containsSubstr model (goBytes key) || containsSubstr (goBytes key) model

/-- One step of the best-match loop of `FindPricing` (`cost.go`): skip the
`"default"` key, and keep the strictly longer of two matching keys. -/
def bestMatchStep (model : List Nat) (best : String) (kv : String × ModelPricing) : String :=
  if kv.1 = "default" then best
  else if keyMatches model kv.1 then
    (if kv.1.length > best.length then kv.1 else best)
  else best

/-- The best-match loop of `FindPricing` (`cost.go`) over the whole table. -/
def findBestMatch (model : List Nat) : String :=
  ModelPrices.foldl (bestMatchStep model) ""

/-- `monitor.FindPricing` (`cost.go`): exact match, then longest
case-insensitive substring match, then family heuristics, then default. -/
def FindPricing (model : String) : ModelPricing :=
  if model = "" then priceOf "default"
  else
    match goLookup model ModelPrices with
    | some p => p
    | Option.none =>
      let best := findBestMatch (goBytes model)
      if best ≠ "" then priceOf best
      else if goStrContains model "claude" then
        if goStrContains model "opus" then priceOf "claude-opus-4"
        else if goStrContains model "haiku" then priceOf "claude-3-haiku"
        else priceOf "claude-sonnet-4"
      else if goStrContains model "gpt-4" then
        if goStrContains model "mini" then priceOf "gpt-4o-mini"
        else priceOf "gpt-4o"
      else if goStrContains model "gemini" then priceOf "gemini-2.0-flash"
      else priceOf "default"

/-- `monitor.EstimateCost` (`cost.go`). -/
def EstimateCost (model : String) (inputTokens outputTokens : Int) : ℚ :=
  let p := FindPricing model
  (inputTokens : ℚ) / 1000000 * p.InputPer1M
    + (outputTokens : ℚ) / 1000000 * p.OutputPer1M

/-! ## `monitor/alerts.go`: alert thresholds, dedup and fleet budget checks -/

/-- `monitor.AlertThresholds` (`alerts.go`). -/
structure AlertThresholds where
  CPUWarning : ℚ := 0
  CPUCritical : ℚ := 0
  MemoryWarning : ℚ := 0
  MemoryCritical : ℚ := 0
  TokenWarning : Int := 0
  TokenCritical : Int := 0
  CostWarning : ℚ := 0
  CostCritical : ℚ := 0
  DailyBudgetUSD : ℚ := 0
  MonthlyBudgetUSD : ℚ := 0
  BudgetWarnPercent : ℚ := 0
  BurnRateWarning : ℚ := 0
  BurnRateCritical : ℚ := 0
  IdleMinutes : Int := 0
  CooldownMinutes : Int := 0
  MaxAlerts : Int := 0
  CPUPercent : ℚ := 0
  MemoryMB : ℚ := 0
  TokensPerMin : Int := 0
  CostPerHour : ℚ := 0
  ErrorRate : ℚ := 0
deriving DecidableEq

/-- `monitor.DefaultThresholds` (`alerts.go`). -/
def DefaultThresholds : AlertThresholds :=
  { CPUWarning := 80
    CPUCritical := 95
    MemoryWarning := 500
    MemoryCritical := 1000
    TokenWarning := 500000
    TokenCritical := 2000000
    CostWarning := 1.0
    CostCritical := 5.0
    DailyBudgetUSD := 0
    MonthlyBudgetUSD := 0
    BudgetWarnPercent := 80
    BurnRateWarning := 2.0
    BurnRateCritical := 3.0
    IdleMinutes := 10
    CooldownMinutes := 5
    MaxAlerts := 100 }

/-- `monitor.AlertMonitor` (`alerts.go`): the mutex is the serialization
device of the Go code and has no observable content, so the state is the
threshold configuration, the bounded alert buffer, the effective maximum,
and the cooldown map. -/
structure AlertMonitorState where
  thresholds : AlertThresholds
  alerts : List Alert
  maxAlerts : Int
  alerted : List (String × Int)
deriving DecidableEq

/-- `monitor.NewAlertMonitor` (`alerts.go`). -/
def NewAlertMonitor (thresholds : AlertThresholds) : AlertMonitorState :=
  { thresholds := thresholds
    alerts := []
    maxAlerts := if thresholds.MaxAlerts ≤ 0 then 100 else thresholds.MaxAlerts
    alerted := [] }

/-- The effective cooldown window of `addAlert` (`alerts.go`):
`CooldownMinutes` minutes, or five minutes when that is non-positive. -/
def cooldownNs (th : AlertThresholds) : Int :=
  let cooldown := th.CooldownMinutes * nsPerMinute
  if cooldown ≤ 0 then 5 * nsPerMinute else cooldown

/-- The eviction step of `addAlert` (`alerts.go:274-276`): drop the oldest
entries once the buffer exceeds `maxAlerts`. -/
def truncAlerts (maxAlerts : Int) (l : List Alert) : List Alert :=
  if (l.length : Int) > maxAlerts then l.drop ((l.length : Int) - maxAlerts).toNat
  else l

/-- The append half of `addAlert` (`alerts.go`): record the alert, refresh
the cooldown timestamp, and evict the oldest entries beyond `maxAlerts`. -/
def pushAlert (st : AlertMonitorState) (now : Int) (id name : String)
    (level : AlertLevel) (msg key : String) : AlertMonitorState :=
  let alert : Alert := ⟨now, level, id, name, msg⟩
  { st with alerts := truncAlerts st.maxAlerts (st.alerts ++ [alert])
            alerted := goInsert key now st.alerted }

/-- `(*AlertMonitor).addAlert` (`alerts.go`): cooldown dedup keyed by
`ID + ":" + alertType`, then append with eviction. -/
def addAlert (st : AlertMonitorState) (now : Int) (id name : String)
    (level : AlertLevel) (msg alertType : String) : AlertMonitorState :=
  let cooldown := cooldownNs st.thresholds
  let key := id ++ ":" ++ alertType
  match goLookup key st.alerted with
  | some last =>
    if now - last < cooldown then st
    else pushAlert st now id name level msg key
  | Option.none => pushAlert st now id name level msg key

/-- The slice of `agent.Instance` (`types.go`) that the alert evaluator and
the token collectors read: identifier and display name from `Info`, the PID,
working directory, CPU/memory gauges, accumulated token metrics, and the
session's last-active instant. -/
structure AgentInstance where
  ID : String
  Name : String
  PID : Int := 0
  WorkDir : String := ""
  CPU : ℚ := 0
  Memory : ℚ := 0
  Tokens : TokenMetrics := {}
  LastActiveAt : Int := 0
deriving DecidableEq

/-- `(*AlertMonitor).Check` (`alerts.go`).  The formatted numbers inside the
human-readable messages are display-only and are elided from the modelled
message text. -/
def Check (st : AlertMonitorState) (a : AgentInstance) (now : Int) : AlertMonitorState :=
  let th := st.thresholds
  let st :=
    if a.CPU ≥ th.CPUCritical then addAlert st now a.ID a.Name .critical "Critical CPU" "cpu"
    else if a.CPU ≥ th.CPUWarning then addAlert st now a.ID a.Name .warning "High CPU" "cpu"
    else st
  let st :=
    if a.Memory ≥ th.MemoryCritical then addAlert st now a.ID a.Name .critical "Critical memory" "mem"
    else if a.Memory ≥ th.MemoryWarning then addAlert st now a.ID a.Name .warning "High memory" "mem"
    else st
  let st :=
    if a.Tokens.TotalTokens ≥ th.TokenCritical then addAlert st now a.ID a.Name .critical "Critical tokens" "tokens"
    else if a.Tokens.TotalTokens ≥ th.TokenWarning then addAlert st now a.ID a.Name .warning "High tokens" "tokens"
    else st
  let st :=
    if a.Tokens.EstCost ≥ th.CostCritical then addAlert st now a.ID a.Name .critical "Critical cost" "cost"
    else if a.Tokens.EstCost ≥ th.CostWarning then addAlert st now a.ID a.Name .warning "High cost" "cost"
    else st
  if th.IdleMinutes > 0 ∧ a.LastActiveAt ≠ 0 then
    let idleDur : ℚ := ((now - a.LastActiveAt : Int) : ℚ) / (nsPerMinute : ℚ)
    if idleDur ≥ (th.IdleMinutes : ℚ) then addAlert st now a.ID a.Name .info "Agent idle" "idle"
    else st
  else st

/-- The instants `CheckFleet` (`alerts.go`) extracts from `time.Now()`:
the raw instant (for timestamps and the cooldown map), the seconds elapsed
since the start of the current day, and the seconds elapsed in / total
seconds of the current month. -/
structure FleetClock where
  nowNs : Int
  dayElapsedSec : ℚ
  monthElapsedSec : ℚ
  monthTotalSec : ℚ
deriving DecidableEq

/-- `monitor.dailyBurnRate` (`alerts.go`). -/
def dailyBurnRate (totalCost budget : ℚ) (t : FleetClock) : ℚ :=
  if budget ≤ 0 then 0
  else
    let elapsed := t.dayElapsedSec
    let dayTotal : ℚ := 24 * 60 * 60
    if elapsed < 5 * 60 then 0
    else
      let expected := budget * (elapsed / dayTotal)
      if expected ≤ 0 then 0 else totalCost / expected

/-- `monitor.monthlyBurnRate` (`alerts.go`). -/
def monthlyBurnRate (totalCost budget : ℚ) (t : FleetClock) : ℚ :=
  if budget ≤ 0 then 0
  else
    let elapsed := t.monthElapsedSec
    if elapsed < 6 * 60 * 60 then 0
    else
      let expected := budget * (elapsed / t.monthTotalSec)
      if expected ≤ 0 then 0 else totalCost / expected

/-- The daily-budget branch of `CheckFleet` (`alerts.go`), entered when
`DailyBudgetUSD > 0`. -/
def checkFleetDaily (st : AlertMonitorState) (t : FleetClock)
    (totalCost burnWarn burnCritical warnPercent : ℚ) : AlertMonitorState :=
  let budget := st.thresholds.DailyBudgetUSD
  let usagePct := totalCost / budget * 100
  let burn := dailyBurnRate totalCost budget t
  if usagePct ≥ 100 then
    addAlert st t.nowNs "fleet" "Fleet" .critical "Daily budget exceeded" "budget_daily"
  else if burn ≥ burnCritical then
    addAlert st t.nowNs "fleet" "Fleet" .critical "Daily burn-rate critical" "burn_daily"
  else if burn ≥ burnWarn then
    addAlert st t.nowNs "fleet" "Fleet" .warning "Daily burn-rate high" "burn_daily"
  else if usagePct ≥ warnPercent then
    addAlert st t.nowNs "fleet" "Fleet" .warning "Daily budget high usage" "budget_daily"
  else st

/-- The monthly-budget branch of `CheckFleet` (`alerts.go`), entered when
`MonthlyBudgetUSD > 0`. -/
def checkFleetMonthly (st : AlertMonitorState) (t : FleetClock)
    (totalCost burnWarn burnCritical warnPercent : ℚ) : AlertMonitorState :=
  let budget := st.thresholds.MonthlyBudgetUSD
  let usagePct := totalCost / budget * 100
  let burn := monthlyBurnRate totalCost budget t
  if usagePct ≥ 100 then
    addAlert st t.nowNs "fleet" "Fleet" .critical "Monthly budget exceeded" "budget_monthly"
  else if burn ≥ burnCritical then
    addAlert st t.nowNs "fleet" "Fleet" .critical "Monthly burn-rate critical" "burn_monthly"
  else if burn ≥ burnWarn then
    addAlert st t.nowNs "fleet" "Fleet" .warning "Monthly burn-rate high" "burn_monthly"
  else if usagePct ≥ warnPercent then
    addAlert st t.nowNs "fleet" "Fleet" .warning "Monthly budget high usage" "budget_monthly"
  else st

/-- `(*AlertMonitor).CheckFleet` (`alerts.go`).  The aggregate token count
is only interpolated into alert messages, which are elided (see `Check`). -/
def CheckFleet (st : AlertMonitorState) (agents : List AgentInstance)
    (t : FleetClock) : AlertMonitorState :=
  if agents.length = 0 then st
  else if st.thresholds.DailyBudgetUSD ≤ 0 ∧ st.thresholds.MonthlyBudgetUSD ≤ 0 then st
  else
    let th := st.thresholds
    let warnPercent :=
      if th.BudgetWarnPercent ≤ 0 ∨ th.BudgetWarnPercent ≥ 100 then 80 else th.BudgetWarnPercent
    let totalCost := (agents.map fun a => a.Tokens.EstCost).sum
    let burnWarn := if th.BurnRateWarning ≤ 0 then 2 else th.BurnRateWarning
    let burnCritical := if th.BurnRateCritical ≤ 0 then 3 else th.BurnRateCritical
    let st1 :=
      if th.DailyBudgetUSD > 0 then
        checkFleetDaily st t totalCost burnWarn burnCritical warnPercent
      else st
    if th.MonthlyBudgetUSD > 0 then
      checkFleetMonthly st1 t totalCost burnWarn burnCritical warnPercent
    else st1

/-! ## `monitor/tokens.go`: per-source token collectors

File contents are byte lists; the byte offset maps (`copilotLogOffsets`,
`claudeLogOffsets`, `aiderLogOffsets`) and last-seen maps are passed and
returned explicitly.  The external pieces each parser drives — the
`regexp` engine behind `copilotReqRe`/`aiderTokenRe` and `encoding/json`'s
`Unmarshal` — are taken as function parameters: every theorem below holds
for an arbitrary matcher/decoder, which covers the concrete one. -/

/-- `strings.Contains`, case-sensitive: is `sub.data` a contiguous
sublist of `s.data`? -/
def charsPrefixEq : List Char → List Char → Bool
  | _, [] => true
  | [], _ :: _ => false
  | a :: s, b :: sub => a == b && charsPrefixEq s sub

/-- Helper for `goContains`: search at every position. -/
def containsCh : List Char → List Char → Bool
  | [], sub => sub.isEmpty
  | c :: r, sub => charsPrefixEq (c :: r) sub || containsCh r sub

/-- `strings.Contains s sub`. -/
def goContains (s sub : String) : Bool :=
  containsCh s.data sub.data

/-- Drop a terminal carriage return, as `bufio.ScanLines`'s `dropCR` does. -/
def dropCR (l : List Char) : List Char :=
  if l.getLast? = some (Char.ofNat 13) then l.dropLast else l

/-- Split bytes into scanner lines; accumulator holds the current line
reversed.  Mirrors `bufio.Scanner` with `ScanLines`: tokens are separated
by a newline, a trailing fragment without a final newline is still
produced, and empty input produces no token. -/
def goLinesAux : List Char → List Char → List String
  | [], cur => if cur.isEmpty then [] else [String.mk (dropCR cur.reverse)]
  | c :: rest, cur =>
    if c = Char.ofNat 10 then String.mk (dropCR cur.reverse) :: goLinesAux rest []
    else goLinesAux rest (c :: cur)

/-- The lines a `bufio.Scanner` yields over a byte list. -/
def goLines (cs : List Char) : List String :=
  goLinesAux cs []

/-- The capture groups of one `copilotReqRe` match (`tokens.go`):
status, model, target, and the latency in milliseconds (group 4, via
`strconv.Atoi`). -/
structure CopilotReqMatch where
  status : String
  model : String
  target : String
  latencyMs : Int
deriving DecidableEq

/-- The body of the scan loop of `parseCopilotLog` (`tokens.go:278-300`)
for one matching line. -/
def copilotLineStep (now : Int) (m : TokenMetrics) (mt : CopilotReqMatch) : TokenMetrics :=
  let m := { m with RequestCount := m.RequestCount + 1, LastModel := mt.model,
                    LastRequestAt := now }
  let m :=
    if mt.latencyMs > 0 then
      if m.AvgLatencyMs = 0 then { m with AvgLatencyMs := mt.latencyMs }
      else { m with AvgLatencyMs :=
              Int.tdiv (m.AvgLatencyMs * (m.RequestCount - 1) + mt.latencyMs) m.RequestCount }
    else m
  let est : Int × Int :=
    if goContains mt.model "gpt-4" || goContains mt.model "claude" then (800, 400)
    else (300, 200)
  let m := { m with InputTokens := m.InputTokens + est.1, OutputTokens := m.OutputTokens + est.2 }
  { m with TotalTokens := m.InputTokens + m.OutputTokens }

/-- The tokens-per-second recomputation shared verbatim by
`parseCopilotLog` (`tokens.go:314-321`) and `parseClaudeJSONL`
(`tokens.go:434-441`). -/
def recomputeRate (now : Int) (m : TokenMetrics) : TokenMetrics :=
  if m.RequestCount > 0 ∧ m.LastRequestAt ≠ 0 then
    let elapsed : ℚ := ((now - m.LastRequestAt : Int) : ℚ) / (nsPerSecond : ℚ)
    if elapsed < 60 ∧ elapsed > 0 then
      { m with TokensPerSec := (m.OutputTokens : ℚ) / (m.RequestCount : ℚ) / (elapsed + 0.5) }
    else { m with TokensPerSec := 0 }
  else m

/-- `(*TokenMonitor).parseCopilotLog` (`tokens.go:246-324`).  `matchFn`
stands for `copilotReqRe.FindStringSubmatch` plus the `Atoi` of group 4.
Returns the updated metrics, offset map, seen map, and `newRequests`. -/
def parseCopilotLog (matchFn : String → Option CopilotReqMatch) (logPath : String)
    (content : List Char) (offsets seen : List (String × Int)) (now : Int)
    (m : TokenMetrics) :
    TokenMetrics × List (String × Int) × List (String × Int) × Int :=
  let seen2 := goInsert logPath now seen
  let offset := (goLookup logPath offsets).getD 0
  let lines := goLines (content.drop offset.toNat)
  let res := lines.foldl
    (fun (acc : TokenMetrics × Int) line =>
      match matchFn line with
      | Option.none => acc
      | some mt => (copilotLineStep now acc.1 mt, acc.2 + 1))
    (m, 0)
  let offsets2 := goInsert logPath (content.length : Int) offsets
  (recomputeRate now res.1, offsets2, seen2, res.2)

/-- The fields of `claudeMessage` (`tokens.go:368-377`) that
`parseClaudeJSONL` reads after `json.Unmarshal`. -/
structure ClaudeMessage where
  type : String
  inputTokens : Int
  outputTokens : Int
  model : String
deriving DecidableEq

/-- `(*TokenMonitor).parseClaudeJSONL` (`tokens.go:379-444`).  `decode`
stands for `json.Unmarshal` into `claudeMessage` (`none` = error). -/
def parseClaudeJSONL (decode : String → Option ClaudeMessage) (path : String)
    (content : List Char) (offsets seen : List (String × Int)) (now : Int)
    (m : TokenMetrics) :
    TokenMetrics × List (String × Int) × List (String × Int) × Int :=
  let seen2 := goInsert path now seen
  let offset := (goLookup path offsets).getD 0
  let lines := goLines (content.drop offset.toNat)
  let res := lines.foldl
    (fun (acc : TokenMetrics × Int) line =>
      if line.trim = "" then acc
      else
        match decode line with
        | Option.none => acc
        | some msg =>
          if msg.type = "assistant" ∧ msg.inputTokens > 0 then
            let m := acc.1
            let m := { m with InputTokens := m.InputTokens + msg.inputTokens,
                              OutputTokens := m.OutputTokens + msg.outputTokens }
            let m := { m with TotalTokens := m.InputTokens + m.OutputTokens,
                              RequestCount := m.RequestCount + 1, LastRequestAt := now }
            let m := if msg.model ≠ "" then { m with LastModel := msg.model } else m
            (m, acc.2 + 1)
          else acc)
    (m, 0)
  let offsets2 := goInsert path (content.length : Int) offsets
  (recomputeRate now res.1, offsets2, seen2, res.2)

/-- Digits to a number; `none` when a non-digit appears. -/
def digitsToNat (cs : List Char) : Option Nat :=
  if cs.all Char.isDigit then
    some (cs.foldl (fun n c => n * 10 + (c.toNat - 48)) 0)
  else none

/-- `strconv.ParseFloat` restricted to the strings the `[\d.]+` capture
groups of `aiderTokenRe` can produce (digits and dots, no sign or
exponent); anything else is a parse error, as in Go.  Exact rational
arithmetic stands in for `float64`. -/
def parseGoFloat (s : String) : Option ℚ :=
  match s.data.splitOn (Char.ofNat 46) with
  | [ip] => if ip.isEmpty then none else (digitsToNat ip).map fun n => (n : ℚ)
  | [ip, fp] =>
    if ip.isEmpty ∧ fp.isEmpty then none
    else
      match digitsToNat ip, digitsToNat fp with
      | some i, some f => some ((i : ℚ) + (f : ℚ) / ((10 : ℚ) ^ fp.length))
      | _, _ => none
  | _ => none

/-- Go's `int64(f)` conversion for a finite float: truncation toward 0. -/
def ratTruncToInt (q : ℚ) : Int :=
  Int.tdiv q.num (q.den : Int)

/-- `monitor.parseTokenCount` (`tokens.go:672-687`). -/
def parseTokenCount (s : String) : Int :=
  let s := s.trim
  let ms : Int × String :=
    if s.endsWith "k" then (1000, s.dropRight 1)
    else if s.endsWith "M" then (1000000, s.dropRight 1)
    else (1, s)
  match parseGoFloat ms.2 with
  | Option.none => 0
  | some f => ratTruncToInt (f * (ms.1 : ℚ))

/-- `(*TokenMonitor).parseAiderHistory` (`tokens.go:619-670`).  `matchFn`
stands for `aiderTokenRe.FindStringSubmatch`, yielding the sent/received
capture groups.  Returns updated metrics, offsets, seen map, and `found`. -/
def parseAiderHistory (matchFn : String → Option (String × String)) (path : String)
    (content : List Char) (offsets seen : List (String × Int)) (now : Int)
    (m : TokenMetrics) :
    TokenMetrics × List (String × Int) × List (String × Int) × Bool :=
  let seen2 := goInsert path now seen
  let offset := (goLookup path offsets).getD 0
  let lines := goLines (content.drop offset.toNat)
  let res := lines.foldl
    (fun (acc : TokenMetrics × Bool) line =>
      match matchFn line with
      | Option.none => acc
      | some groups =>
        let sent := parseTokenCount groups.1
        let recv := parseTokenCount groups.2
        let m := acc.1
        let m := { m with InputTokens := m.InputTokens + sent,
                          OutputTokens := m.OutputTokens + recv }
        let m := { m with TotalTokens := m.InputTokens + m.OutputTokens,
                          RequestCount := m.RequestCount + 1, LastRequestAt := now,
                          LastModel := "aider" }
        (m, true))
    (m, false)
  let offsets2 := goInsert path (content.length : Int) offsets
  (res.1, offsets2, seen2, res.2)

/-- `monitor.cursorDBParseResult` (`tokens.go:523-528`). -/
structure cursorDBParseResult where
  InputTokens : Int := 0
  OutputTokens : Int := 0
  RequestCount : Int := 0
  LastModel : String := ""
deriving DecidableEq

/-- The tail of `(*TokenMonitor).parseCursorDB` (`tokens.go:496-521`), from
the `parseCursorDBLines` result onward: the sqlite invocation and the JSON
decoding of the rows are external and enter through `parsed`.  Returns the
updated metrics and the Bool `parseCursorDB` returns. -/
def parseCursorDBApply (parsed : cursorDBParseResult) (now : Int) (m : TokenMetrics) :
    TokenMetrics × Bool :=
  if parsed.RequestCount > 0 ∨ parsed.InputTokens > 0 ∨ parsed.OutputTokens > 0 then
    let m := { m with InputTokens := parsed.InputTokens,
                      OutputTokens := parsed.OutputTokens,
                      RequestCount := parsed.RequestCount }
    let m := { m with TotalTokens := m.InputTokens + m.OutputTokens }
    let m := { m with LastModel := if parsed.LastModel ≠ "" then parsed.LastModel else "cursor",
                      LastRequestAt := now }
    let m :=
      if m.InputTokens = 0 ∧ m.RequestCount > 0 then
        let m := { m with InputTokens := m.RequestCount * 500,
                          OutputTokens := m.RequestCount * 300 }
        let m := { m with TotalTokens := m.InputTokens + m.OutputTokens }
        { m with Source := .estimated }
      else m
    (m, true)
  else (m, false)

/-- The database path of `(*TokenMonitor).collectCursor`
(`tokens.go:463-466`): when `parseCursorDB` reports success, the collector
overwrites `Source` with `agent.TokenSourceDB` and returns.  (On failure
the Go code falls through to Cursor's extension logs and the network
estimator, which is not reached in any theorem below.) -/
def collectCursorFromDB (parsed : cursorDBParseResult) (now : Int) (m : TokenMetrics) :
    TokenMetrics :=
  let r := parseCursorDBApply parsed now m
  if r.2 then { r.1 with Source := .db } else r.1

/-- `(*TokenMonitor).collectFromNetwork` (`tokens.go:691-723`).  `bytes` is
what `getNetworkBytesForPID` returned (`0` on error, matching the Go error
path which records the error and leaves `bytes` zero). -/
def collectFromNetwork (bytes pid now : Int)
    (prevBytes prevBytesSeen : List (Int × Int)) (m : TokenMetrics) :
    TokenMetrics × List (Int × Int) × List (Int × Int) :=
  if bytes ≤ 0 then (m, prevBytes, prevBytesSeen)
  else
    let prev := (goLookup pid prevBytes).getD 0
    let delta := bytes - prev
    let prevBytes2 := goInsert pid bytes prevBytes
    let prevBytesSeen2 := goInsert pid now prevBytesSeen
    if delta ≤ 0 ∨ prev = 0 then (m, prevBytes2, prevBytesSeen2)
    else
      let estimatedTokens := Int.tdiv delta 4
      let m := { m with OutputTokens := m.OutputTokens + estimatedTokens }
      let m := { m with TotalTokens := m.InputTokens + m.OutputTokens, LastRequestAt := now }
      let m := if m.Source = .none then { m with Source := .network } else m
      let m := { m with TokensPerSec := (estimatedTokens : ℚ) / 2 }
      (m, prevBytes2, prevBytesSeen2)

/-- Modelled from the spec: the repository's `tokenConfidence` function is
exercised by `TestTokenConfidence` (`monitor/tokens_test.go:206-224`) but
its definition is not among the provided sources.  Spec §3/glossary:
"Confidence: scalar reliability score derived solely from Source"; the
values are the ones the test pins (log/db/local-api 0.95, estimated 0.70,
network 0.60, none 0). -/
def tokenConfidence : TokenSource → ℚ
  | .log => 0.95
  | .db => 0.95
  | .localAPI => 0.95
  | .estimated => 0.70
  | .network => 0.60
  | .none => 0

/-- Modelled from the spec: the per-agent finalization of
`(*TokenMonitor).Collect` before the metrics are copied back onto the
instance.  The cost assignment is `tokens.go:155`; the confidence
assignment ("a confidence scalar derived purely from Source", spec §3) is
part of the code missing from the provided sources. -/
def collectFinalize (m : TokenMetrics) : TokenMetrics :=
  { m with EstCost := EstimateCost m.LastModel m.InputTokens m.OutputTokens,
           Confidence := tokenConfidence m.Source }

/-- One dedup-relevant invocation of `addAlert`: the arguments `Check` or
`CheckFleet` pass for a single candidate alert. -/
structure AlertOp where
  now : Int
  id : String
  name : String
  level : AlertLevel
  msg : String
  alertType : String

/-- The cooldown key of an invocation (`alerts.go:257`). -/
def opKey (o : AlertOp) : String := o.id ++ ":" ++ o.alertType

/-- The `agent.Alert` an invocation records when it is not suppressed. -/
def opAlert (o : AlertOp) : Alert := ⟨o.now, o.level, o.id, o.name, o.msg⟩

/-- A sequence of `addAlert` invocations against one monitor state. -/
def runAlerts (st : AlertMonitorState) (ops : List AlertOp) : AlertMonitorState :=
  ops.foldl (fun s o => addAlert s o.now o.id o.name o.level o.msg o.alertType) st

/-- The `TokenMetrics` invariant of spec §3: the derived total equals
input plus output. -/
def tokenInvariant (m : TokenMetrics) : Prop :=
  m.TotalTokens = m.InputTokens + m.OutputTokens

/-! ## Shared lemmas -/

theorem goLookup_goInsert_self {α β : Type} [DecidableEq α]
    (k : α) (v : β) (m : List (α × β)) :
    goLookup k (goInsert k v m) = some v := by
  simp [goLookup, goInsert]

theorem goLookup_goInsert_ne {α β : Type} [DecidableEq α]
    {k k' : α} (v : β) (m : List (α × β)) (h : k' ≠ k) :
    goLookup k (goInsert k' v m) = goLookup k m := by
  simp [goLookup, goInsert, h]

theorem recomputeRate_InputTokens (now : Int) (m : TokenMetrics) :
    (recomputeRate now m).InputTokens = m.InputTokens := by
  simp only [recomputeRate]
  split <;> first | rfl | (split <;> rfl)

theorem recomputeRate_OutputTokens (now : Int) (m : TokenMetrics) :
    (recomputeRate now m).OutputTokens = m.OutputTokens := by
  simp only [recomputeRate]
  split <;> first | rfl | (split <;> rfl)

theorem recomputeRate_TotalTokens (now : Int) (m : TokenMetrics) :
    (recomputeRate now m).TotalTokens = m.TotalTokens := by
  simp only [recomputeRate]
  split <;> first | rfl | (split <;> rfl)

theorem recomputeRate_RequestCount (now : Int) (m : TokenMetrics) :
    (recomputeRate now m).RequestCount = m.RequestCount := by
  simp only [recomputeRate]
  split <;> first | rfl | (split <;> rfl)

/-! ## C10: `CheckFleet` on an empty instance list is a no-op -/

/-- C10: `CheckFleet` called with an empty instance list changes nothing —
no alert is appended, the buffer and the cooldown map are untouched — even
when a daily or monthly budget is configured, because the empty-list check
precedes the budget checks (`alerts.go:132-134`). -/
theorem checkFleet_empty_noop (st : AlertMonitorState) (t : FleetClock) :
    CheckFleet st [] t = st := by
  simp [CheckFleet]

/-! ## C1: Cursor's estimated-token substitution and the `Source` overwrite -/

/-- C1 (code_bug evidence): on database rows with no explicit token counts
but a positive request count (here two conversation entries),
`parseCursorDB` substitutes 500 input / 300 output tokens per request and
marks `Source` as `estimated` (`tokens.go:511-516`) — but `collectCursor`
then unconditionally overwrites `Source` with `TokenSourceDB`
(`tokens.go:463-466`) whenever `parseCursorDB` reports success, so the
`Source` that survives collection is `db`, not `estimated`, contradicting
the claim. -/
theorem cursor_estimated_source_overwritten :
    (parseCursorDBApply { RequestCount := 2 } 7 {}).1.InputTokens = 1000 ∧
    (parseCursorDBApply { RequestCount := 2 } 7 {}).1.OutputTokens = 600 ∧
    (parseCursorDBApply { RequestCount := 2 } 7 {}).1.Source = TokenSource.estimated ∧
    (parseCursorDBApply { RequestCount := 2 } 7 {}).2 = true ∧
    (collectCursorFromDB { RequestCount := 2 } 7 {}).Source = TokenSource.db := by
  refine ⟨rfl, rfl, rfl, rfl, rfl⟩

/-! ## C2: confidence is a function of `Source` alone -/

/-- C2: after the per-agent finalization of a collection cycle, the
`Confidence` written back onto the instance is `tokenConfidence` of the
metrics' `Source` — so any two agents or cycles with equal `Source` carry
equal `Confidence` — and a non-`none` `Source` yields a non-zero
`Confidence`.  (`tokenConfidence` and its call site are modelled from the
spec; see its doc comment.) -/
theorem confidence_function_of_source (m m' : TokenMetrics) :
    (collectFinalize m).Confidence = tokenConfidence m.Source ∧
    (m.Source = m'.Source →
      (collectFinalize m).Confidence = (collectFinalize m').Confidence) ∧
    (m.Source ≠ TokenSource.none → (collectFinalize m).Confidence ≠ 0) := by
  refine ⟨rfl, fun h => by simp [collectFinalize, h], fun h => ?_⟩
  show tokenConfidence m.Source ≠ 0
  cases hs : m.Source <;> simp_all [tokenConfidence] <;> norm_num

/-- Witness for C2 at a concrete metrics value with `Source = log`. -/
theorem confidence_function_of_source_witness :
    (collectFinalize { Source := TokenSource.log }).Confidence
        = tokenConfidence TokenSource.log ∧
    (collectFinalize { Source := TokenSource.log }).Confidence ≠ 0 :=
  ⟨(confidence_function_of_source { Source := TokenSource.log }
      { Source := TokenSource.log }).1,
   (confidence_function_of_source { Source := TokenSource.log }
      { Source := TokenSource.log }).2.2 (by decide)⟩

/-! ## C8: the network estimator's baseline and delta behaviour -/

/-- C8: for the network-based estimator, the first byte observation for a
PID (zero baseline) only establishes the baseline and adds no tokens; on
later observations only a strictly positive byte delta produces tokens,
the estimate is `delta / 4` attributed entirely to output tokens, and
input tokens never change (`tokens.go:691-723`). -/
theorem collectFromNetwork_spec (bytes pid now : Int)
    (pb ps : List (Int × Int)) (m : TokenMetrics) :
    ((goLookup pid pb).getD 0 = 0 → 0 < bytes →
      (collectFromNetwork bytes pid now pb ps m).1 = m ∧
      goLookup pid (collectFromNetwork bytes pid now pb ps m).2.1 = some bytes) ∧
    (∀ prev, goLookup pid pb = some prev → 0 < prev → prev < bytes →
      (collectFromNetwork bytes pid now pb ps m).1.OutputTokens
          = m.OutputTokens + Int.tdiv (bytes - prev) 4 ∧
      (collectFromNetwork bytes pid now pb ps m).1.InputTokens = m.InputTokens) ∧
    (∀ prev, goLookup pid pb = some prev → 0 < bytes → bytes ≤ prev →
      (collectFromNetwork bytes pid now pb ps m).1 = m) := by
  refine ⟨fun h0 hb => ?_, fun prev hl hp hlt => ?_, fun prev hl hb hle => ?_⟩
  · have hnb : ¬ bytes ≤ 0 := by omega
    constructor
    · simp [collectFromNetwork, hnb, h0]
    · simp [collectFromNetwork, hnb, h0, goLookup_goInsert_self]
  · have hnb : ¬ bytes ≤ 0 := by omega
    have hprev : (goLookup pid pb).getD 0 = prev := by rw [hl]; rfl
    have hcond : ¬ (bytes ≤ prev ∨ prev = 0) := by omega
    by_cases hsrc : m.Source = TokenSource.none <;> constructor <;>
      simp [collectFromNetwork, hnb, hprev, hcond, hsrc]
  · have hnb : ¬ bytes ≤ 0 := by omega
    have hprev : (goLookup pid pb).getD 0 = prev := by rw [hl]; rfl
    have hcond : (bytes ≤ prev ∨ prev = 0) := Or.inl hle
    simp [collectFromNetwork, hnb, hprev, hcond]

/-- Witness for C8: fresh PID baseline at 100 bytes, then a later
observation of 180 bytes yields `(180 - 100) / 4 = 20` output tokens. -/
theorem collectFromNetwork_spec_witness :
    ((collectFromNetwork 100 1 5 [] [] {}).1 = {} ∧
      goLookup 1 (collectFromNetwork 100 1 5 [] [] {}).2.1 = some 100) ∧
    ((collectFromNetwork 180 1 9 [(1, 100)] [] {}).1.OutputTokens
        = 0 + Int.tdiv (180 - 100) 4 ∧
      (collectFromNetwork 180 1 9 [(1, 100)] [] {}).1.InputTokens = 0) :=
  ⟨(collectFromNetwork_spec 100 1 5 [] [] {}).1 rfl (by decide),
   (collectFromNetwork_spec 180 1 9 [(1, 100)] [] {}).2.1 100 rfl
      (by decide) (by decide)⟩

theorem truncAlerts_eq_dropNat (M : Int) (hM : 0 ≤ M) (l : List Alert) :
    truncAlerts M l = l.drop (l.length - M.toNat) := by
  unfold truncAlerts
  split
  · congr 1
    omega
  · rw [Nat.sub_eq_zero_of_le (by omega), List.drop_zero]

theorem dropTrunc_general {α : Type} (m : Nat) (l r : List α) :
    (l.drop (l.length - m) ++ r).drop ((l.drop (l.length - m) ++ r).length - m)
      = (l ++ r).drop ((l ++ r).length - m) := by
  rcases le_or_lt l.length m with h | h
  · rw [Nat.sub_eq_zero_of_le h, List.drop_zero]
  · rw [List.drop_append_eq_append_drop, List.drop_append_eq_append_drop, List.drop_drop]
    congr 1
    · congr 1
      simp only [List.length_append, List.length_drop]
      omega
    · congr 1
      simp only [List.length_append, List.length_drop]
      omega

theorem truncAlerts_trunc_append (M : Int) (hM : 0 ≤ M) (l r : List Alert) :
    truncAlerts M (truncAlerts M l ++ r) = truncAlerts M (l ++ r) := by
  simp only [truncAlerts_eq_dropNat M hM]
  exact dropTrunc_general M.toNat l r

theorem truncAlerts_of_le (M : Int) (l : List Alert) (h : (l.length : Int) ≤ M) :
    truncAlerts M l = l := by
  unfold truncAlerts
  rw [if_neg (by omega)]

theorem pushAlert_thresholds (st : AlertMonitorState) (now : Int) (id name : String)
    (lvl : AlertLevel) (msg key : String) :
    (pushAlert st now id name lvl msg key).thresholds = st.thresholds := rfl

theorem pushAlert_maxAlerts (st : AlertMonitorState) (now : Int) (id name : String)
    (lvl : AlertLevel) (msg key : String) :
    (pushAlert st now id name lvl msg key).maxAlerts = st.maxAlerts := rfl

theorem addAlert_thresholds (st : AlertMonitorState) (now : Int) (id name : String)
    (lvl : AlertLevel) (msg ty : String) :
    (addAlert st now id name lvl msg ty).thresholds = st.thresholds := by
  simp only [addAlert]
  split
  · split <;> rfl
  · rfl

theorem addAlert_maxAlerts (st : AlertMonitorState) (now : Int) (id name : String)
    (lvl : AlertLevel) (msg ty : String) :
    (addAlert st now id name lvl msg ty).maxAlerts = st.maxAlerts := by
  simp only [addAlert]
  split
  · split <;> rfl
  · rfl

theorem addAlert_suppressed (st : AlertMonitorState) (now : Int) (id name : String)
    (lvl : AlertLevel) (msg ty : String) (last : Int)
    (hl : goLookup (id ++ ":" ++ ty) st.alerted = some last)
    (hc : now - last < cooldownNs st.thresholds) :
    addAlert st now id name lvl msg ty = st := by
  simp only [addAlert, hl]
  rw [if_pos hc]

theorem addAlert_fires (st : AlertMonitorState) (now : Int) (id name : String)
    (lvl : AlertLevel) (msg ty : String)
    (h : goLookup (id ++ ":" ++ ty) st.alerted = Option.none ∨
      ∃ last, goLookup (id ++ ":" ++ ty) st.alerted = some last ∧
        cooldownNs st.thresholds ≤ now - last) :
    addAlert st now id name lvl msg ty
      = pushAlert st now id name lvl msg (id ++ ":" ++ ty) := by
  rcases h with h | ⟨last, hl, hc⟩
  · simp only [addAlert, h]
  · simp only [addAlert, hl]
    rw [if_neg (by omega)]

/-! ## C3: cooldown deduplication -/

/-- C3: a candidate alert whose `(subject, condition-kind)` key fired
within the cooldown window (`CooldownMinutes`, or 5 minutes when
non-positive) is suppressed, leaving buffer and cooldown map untouched;
otherwise it is appended (up to eviction) and the key's timestamp is
refreshed.  Consequently two `Check` calls firing the same condition
within the window store exactly one alert, and a call after the window
stores a second (`alerts.go:251-277`, `alerts.go:84-123`). -/
theorem alert_cooldown_dedup :
    (∀ (st : AlertMonitorState) (now : Int) (id name : String) (lvl : AlertLevel)
        (msg ty : String) (last : Int),
      goLookup (id ++ ":" ++ ty) st.alerted = some last →
      now - last < cooldownNs st.thresholds →
      addAlert st now id name lvl msg ty = st) ∧
    (∀ (st : AlertMonitorState) (now : Int) (id name : String) (lvl : AlertLevel)
        (msg ty : String),
      (goLookup (id ++ ":" ++ ty) st.alerted = Option.none ∨
        ∃ last, goLookup (id ++ ":" ++ ty) st.alerted = some last ∧
          cooldownNs st.thresholds ≤ now - last) →
      (addAlert st now id name lvl msg ty).alerts
          = truncAlerts st.maxAlerts (st.alerts ++ [⟨now, lvl, id, name, msg⟩]) ∧
      goLookup (id ++ ":" ++ ty) (addAlert st now id name lvl msg ty).alerted
          = some now) ∧
    (∀ (st : AlertMonitorState) (t1 t2 : Int) (id name : String) (lvl : AlertLevel)
        (msg ty : String),
      goLookup (id ++ ":" ++ ty) st.alerted = Option.none →
      t2 - t1 < cooldownNs st.thresholds →
      (st.alerts.length : Int) < st.maxAlerts →
      (addAlert (addAlert st t1 id name lvl msg ty) t2 id name lvl msg ty).alerts
          = st.alerts ++ [⟨t1, lvl, id, name, msg⟩]) ∧
    (∀ (st : AlertMonitorState) (t1 t2 : Int) (id name : String) (lvl : AlertLevel)
        (msg ty : String),
      goLookup (id ++ ":" ++ ty) st.alerted = Option.none →
      cooldownNs st.thresholds ≤ t2 - t1 →
      (st.alerts.length : Int) + 2 ≤ st.maxAlerts →
      (addAlert (addAlert st t1 id name lvl msg ty) t2 id name lvl msg ty).alerts
          = st.alerts ++ [⟨t1, lvl, id, name, msg⟩, ⟨t2, lvl, id, name, msg⟩]) ∧
    (∀ (st : AlertMonitorState) (a : AgentInstance) (now : Int),
      a.CPU ≥ st.thresholds.CPUCritical →
      a.Memory < st.thresholds.MemoryWarning →
      a.Memory < st.thresholds.MemoryCritical →
      a.Tokens.TotalTokens < st.thresholds.TokenWarning →
      a.Tokens.TotalTokens < st.thresholds.TokenCritical →
      a.Tokens.EstCost < st.thresholds.CostWarning →
      a.Tokens.EstCost < st.thresholds.CostCritical →
      a.LastActiveAt = 0 →
      Check st a now = addAlert st now a.ID a.Name .critical "Critical CPU" "cpu") ∧
    (∀ (st : AlertMonitorState) (a : AgentInstance) (t1 t2 : Int),
      a.CPU ≥ st.thresholds.CPUCritical →
      a.Memory < st.thresholds.MemoryWarning →
      a.Memory < st.thresholds.MemoryCritical →
      a.Tokens.TotalTokens < st.thresholds.TokenWarning →
      a.Tokens.TotalTokens < st.thresholds.TokenCritical →
      a.Tokens.EstCost < st.thresholds.CostWarning →
      a.Tokens.EstCost < st.thresholds.CostCritical →
      a.LastActiveAt = 0 →
      goLookup (a.ID ++ ":" ++ "cpu") st.alerted = Option.none →
      t2 - t1 < cooldownNs st.thresholds →
      (st.alerts.length : Int) < st.maxAlerts →
      (Check (Check st a t1) a t2).alerts
          = st.alerts ++ [⟨t1, .critical, a.ID, a.Name, "Critical CPU"⟩]) := by
  have hsupp := addAlert_suppressed
  have hfire := addAlert_fires
  have hone : ∀ (st : AlertMonitorState) (t1 t2 : Int) (id name : String)
      (lvl : AlertLevel) (msg ty : String),
      goLookup (id ++ ":" ++ ty) st.alerted = Option.none →
      t2 - t1 < cooldownNs st.thresholds →
      (st.alerts.length : Int) < st.maxAlerts →
      (addAlert (addAlert st t1 id name lvl msg ty) t2 id name lvl msg ty).alerts
          = st.alerts ++ [⟨t1, lvl, id, name, msg⟩] := by
    intro st t1 t2 id name lvl msg ty hl hc hroom
    rw [hfire st t1 id name lvl msg ty (Or.inl hl)]
    rw [hsupp _ t2 id name lvl msg ty t1 (goLookup_goInsert_self _ _ _) (by
      rw [pushAlert_thresholds]
      exact hc)]
    show truncAlerts st.maxAlerts (st.alerts ++ [⟨t1, lvl, id, name, msg⟩]) = _
    exact truncAlerts_of_le _ _ (by simp; omega)
  have hcheck : ∀ (st : AlertMonitorState) (a : AgentInstance) (now : Int),
      a.CPU ≥ st.thresholds.CPUCritical →
      a.Memory < st.thresholds.MemoryWarning →
      a.Memory < st.thresholds.MemoryCritical →
      a.Tokens.TotalTokens < st.thresholds.TokenWarning →
      a.Tokens.TotalTokens < st.thresholds.TokenCritical →
      a.Tokens.EstCost < st.thresholds.CostWarning →
      a.Tokens.EstCost < st.thresholds.CostCritical →
      a.LastActiveAt = 0 →
      Check st a now = addAlert st now a.ID a.Name .critical "Critical CPU" "cpu" := by
    intro st a now hcpu hmw hmc htw htc hcw hcc hza
    simp only [Check]
    rw [if_pos hcpu, if_neg (not_le.mpr hmc), if_neg (not_le.mpr hmw),
      if_neg (not_le.mpr htc), if_neg (not_le.mpr htw),
      if_neg (not_le.mpr hcc), if_neg (not_le.mpr hcw),
      if_neg (by simp [hza])]
  refine ⟨fun st now id name lvl msg ty last hl hc => hsupp st now id name lvl msg ty last hl hc,
    fun st now id name lvl msg ty h => ?_, hone,
    fun st t1 t2 id name lvl msg ty hl hc hroom => ?_, hcheck,
    fun st a t1 t2 hcpu hmw hmc htw htc hcw hcc hza hl hc hroom => ?_⟩
  · rw [hfire st now id name lvl msg ty h]
    exact ⟨rfl, goLookup_goInsert_self _ _ _⟩
  · have hM : (0 : Int) ≤ st.maxAlerts := by omega
    rw [hfire st t1 id name lvl msg ty (Or.inl hl)]
    rw [hfire _ t2 id name lvl msg ty (Or.inr ⟨t1, goLookup_goInsert_self _ _ _, by
      rw [pushAlert_thresholds]
      exact hc⟩)]
    show truncAlerts st.maxAlerts
        (truncAlerts st.maxAlerts (st.alerts ++ [⟨t1, lvl, id, name, msg⟩])
          ++ [⟨t2, lvl, id, name, msg⟩]) = _
    rw [truncAlerts_trunc_append st.maxAlerts hM, List.append_assoc]
    exact truncAlerts_of_le _ _ (by simp; omega)
  · rw [hcheck st a t1 hcpu hmw hmc htw htc hcw hcc hza]
    rw [hcheck _ a t2 (by rw [addAlert_thresholds]; exact hcpu)
      (by rw [addAlert_thresholds]; exact hmw) (by rw [addAlert_thresholds]; exact hmc)
      (by rw [addAlert_thresholds]; exact htw) (by rw [addAlert_thresholds]; exact htc)
      (by rw [addAlert_thresholds]; exact hcw) (by rw [addAlert_thresholds]; exact hcc) hza]
    exact hone st t1 t2 a.ID a.Name .critical "Critical CPU" "cpu" hl hc hroom

/-- Witness for C3: with default thresholds (five-minute cooldown), a
fresh monitor, and an agent at 99% CPU, checking at `t = 0` and again one
minute later stores exactly one alert; checking again six minutes after
the first stores a second. -/
theorem alert_cooldown_dedup_witness :
    (Check (Check (NewAlertMonitor DefaultThresholds)
        { ID := "a1", Name := "A1", CPU := 99 } 0)
        { ID := "a1", Name := "A1", CPU := 99 } (1 * nsPerMinute)).alerts
      = [⟨0, .critical, "a1", "A1", "Critical CPU"⟩] ∧
    (addAlert (addAlert (NewAlertMonitor DefaultThresholds) 0 "a1" "A1"
        .critical "Critical CPU" "cpu") (6 * nsPerMinute) "a1" "A1"
        .critical "Critical CPU" "cpu").alerts
      = [⟨0, .critical, "a1", "A1", "Critical CPU"⟩,
         ⟨6 * nsPerMinute, .critical, "a1", "A1", "Critical CPU"⟩] :=
  ⟨alert_cooldown_dedup.2.2.2.2.2 (NewAlertMonitor DefaultThresholds)
      { ID := "a1", Name := "A1", CPU := 99 } 0 (1 * nsPerMinute)
      (by with_unfolding_all decide) (by with_unfolding_all decide)
      (by with_unfolding_all decide) (by decide) (by decide)
      (by with_unfolding_all decide) (by with_unfolding_all decide) rfl rfl
      (by with_unfolding_all decide) (by decide),
   alert_cooldown_dedup.2.2.2.1 (NewAlertMonitor DefaultThresholds)
      0 (6 * nsPerMinute) "a1" "A1" .critical "Critical CPU" "cpu" rfl
      (by with_unfolding_all decide) (by decide)⟩

/-! ## C4: the alert buffer is bounded -/

theorem truncAlerts_length_le (M : Int) (l : List Alert) (x : Alert)
    (h : (l.length : Int) ≤ M) :
    ((truncAlerts M (l ++ [x])).length : Int) ≤ M := by
  unfold truncAlerts
  split
  · simp only [List.length_drop, List.length_append, List.length_singleton]
    omega
  · omega

theorem runAlerts_fresh (ops : List AlertOp) : ∀ st : AlertMonitorState,
    0 ≤ st.maxAlerts →
    (st.alerts.length : Int) ≤ st.maxAlerts →
    (∀ o ∈ ops, goLookup (opKey o) st.alerted = Option.none) →
    (ops.map opKey).Nodup →
    (runAlerts st ops).alerts
        = truncAlerts st.maxAlerts (st.alerts ++ ops.map opAlert) ∧
    (runAlerts st ops).maxAlerts = st.maxAlerts := by
  induction ops with
  | nil =>
    intro st _ hlen _ _
    refine ⟨?_, rfl⟩
    show st.alerts = truncAlerts st.maxAlerts (st.alerts ++ [])
    rw [List.append_nil, truncAlerts_of_le _ _ hlen]
  | cons o rest ih =>
    intro st hM hlen hfresh hnodup
    have hstep : addAlert st o.now o.id o.name o.level o.msg o.alertType
        = pushAlert st o.now o.id o.name o.level o.msg (opKey o) :=
      addAlert_fires st o.now o.id o.name o.level o.msg o.alertType
        (Or.inl (hfresh o (List.mem_cons_self o rest)))
    have hrun : runAlerts st (o :: rest)
        = runAlerts (pushAlert st o.now o.id o.name o.level o.msg (opKey o)) rest := by
      simp only [runAlerts, List.foldl_cons, hstep]
    have hnd1 : opKey o ∉ rest.map opKey := by
      have := hnodup
      simp only [List.map_cons, List.nodup_cons] at this
      exact this.1
    have hfresh2 : ∀ o2 ∈ rest,
        goLookup (opKey o2)
          (pushAlert st o.now o.id o.name o.level o.msg (opKey o)).alerted
          = Option.none := by
      intro o2 ho2
      show goLookup (opKey o2) (goInsert (opKey o) o.now st.alerted) = Option.none
      rw [goLookup_goInsert_ne _ _ (by
        intro he
        exact hnd1 (by rw [he]; exact List.mem_map_of_mem opKey ho2))]
      exact hfresh o2 (List.mem_cons_of_mem o ho2)
    have hih := ih (pushAlert st o.now o.id o.name o.level o.msg (opKey o))
      (by rw [pushAlert_maxAlerts]; exact hM)
      (by
        rw [pushAlert_maxAlerts]
        exact truncAlerts_length_le st.maxAlerts st.alerts _ hlen)
      hfresh2
      (by
        have := hnodup
        simp only [List.map_cons, List.nodup_cons] at this
        exact this.2)
    rw [hrun]
    refine ⟨?_, by rw [hih.2, pushAlert_maxAlerts]⟩
    rw [hih.1, pushAlert_maxAlerts]
    show truncAlerts st.maxAlerts
        (truncAlerts st.maxAlerts (st.alerts ++ [opAlert o]) ++ rest.map opAlert) = _
    rw [truncAlerts_trunc_append st.maxAlerts hM, List.append_assoc]
    rfl

/-- C4: the alert buffer never exceeds `maxAlerts` entries (`MaxAlerts`,
or 100 when configured non-positive, fixed at construction,
`alerts.go:68-79`): every `addAlert` preserves the bound, and inserting a
sequence of distinct-keyed alerts into a fresh monitor retains exactly the
most recently inserted `maxAlerts` entries in insertion order
(`alerts.go:274-276`). -/
theorem alert_buffer_bounded :
    (∀ th : AlertThresholds,
      (NewAlertMonitor th).maxAlerts
          = (if th.MaxAlerts ≤ 0 then 100 else th.MaxAlerts) ∧
      0 < (NewAlertMonitor th).maxAlerts ∧
      (NewAlertMonitor th).alerts = []) ∧
    (∀ (st : AlertMonitorState) (now : Int) (id name : String) (lvl : AlertLevel)
        (msg ty : String),
      0 ≤ st.maxAlerts →
      (st.alerts.length : Int) ≤ st.maxAlerts →
      ((addAlert st now id name lvl msg ty).alerts.length : Int) ≤ st.maxAlerts) ∧
    (∀ (th : AlertThresholds) (ops : List AlertOp),
      (ops.map opKey).Nodup →
      (runAlerts (NewAlertMonitor th) ops).alerts
          = (ops.map opAlert).drop (ops.length - (NewAlertMonitor th).maxAlerts.toNat)) := by
  have hnewpos : ∀ th : AlertThresholds, 0 < (NewAlertMonitor th).maxAlerts := by
    intro th
    show 0 < (if th.MaxAlerts ≤ 0 then 100 else th.MaxAlerts)
    split <;> omega
  refine ⟨fun th => ⟨rfl, hnewpos th, rfl⟩,
    fun st now id name lvl msg ty hM hlen => ?_, fun th ops hnodup => ?_⟩
  · simp only [addAlert]
    split
    · split
      · exact hlen
      · exact truncAlerts_length_le st.maxAlerts st.alerts _ hlen
    · exact truncAlerts_length_le st.maxAlerts st.alerts _ hlen
  · have h := runAlerts_fresh ops (NewAlertMonitor th)
      (le_of_lt (hnewpos th)) (by simpa using le_of_lt (hnewpos th))
      (fun o _ => rfl) hnodup
    rw [h.1]
    rw [truncAlerts_eq_dropNat _ (le_of_lt (hnewpos th))]
    show ((NewAlertMonitor th).alerts ++ ops.map opAlert).drop _
        = (ops.map opAlert).drop _
    simp [NewAlertMonitor]

/-- Witness for C4: a monitor configured with `MaxAlerts = 2` receiving
three distinct-keyed alerts keeps only the last two, in order. -/
theorem alert_buffer_bounded_witness :
    (runAlerts (NewAlertMonitor { MaxAlerts := 2 })
        [⟨1, "a", "A", .info, "m1", "t1"⟩,
         ⟨2, "a", "A", .info, "m2", "t2"⟩,
         ⟨3, "a", "A", .info, "m3", "t3"⟩]).alerts
      = [⟨2, .info, "a", "A", "m2"⟩, ⟨3, .info, "a", "A", "m3"⟩] ∧
    ((addAlert (NewAlertMonitor { MaxAlerts := 2 }) 1 "a" "A" .info "m1" "t1").alerts.length
        : Int) ≤ (NewAlertMonitor { MaxAlerts := 2 }).maxAlerts := by
  refine ⟨?_, ?_⟩
  · rw [alert_buffer_bounded.2.2 { MaxAlerts := 2 }
      [⟨1, "a", "A", .info, "m1", "t1"⟩,
       ⟨2, "a", "A", .info, "m2", "t2"⟩,
       ⟨3, "a", "A", .info, "m3", "t3"⟩] (by decide)]
    with_unfolding_all decide
  · exact alert_buffer_bounded.2.1 (NewAlertMonitor { MaxAlerts := 2 }) 1 "a" "A"
      .info "m1" "t1" (by decide) (by decide)

/-! ## C5: fleet burn-rate alerts and firing priority -/

/-- C5: in `CheckFleet`, each configured budget period fires at most one of
its four conditions per call, in priority order — budget exceeded
(critical), burn ≥ critical multiplier (critical), burn ≥ warning
multiplier (warning), usage ≥ warn-percent (warning) — and when the burn
rate is at or above the critical multiplier with the elapsed-time floor
passed, usage below 100% and no cooldown suppression, a critical
burn-rate alert is recorded for the daily period
(`alerts.go:128-214`, `alerts.go:216-231`). -/
theorem fleet_burn_priority :
    (∀ (st : AlertMonitorState) (t : FleetClock)
        (totalCost burnWarn burnCritical warnPercent : ℚ),
      (totalCost / st.thresholds.DailyBudgetUSD * 100 ≥ 100 →
        checkFleetDaily st t totalCost burnWarn burnCritical warnPercent
          = addAlert st t.nowNs "fleet" "Fleet" .critical "Daily budget exceeded" "budget_daily") ∧
      (totalCost / st.thresholds.DailyBudgetUSD * 100 < 100 →
        dailyBurnRate totalCost st.thresholds.DailyBudgetUSD t ≥ burnCritical →
        checkFleetDaily st t totalCost burnWarn burnCritical warnPercent
          = addAlert st t.nowNs "fleet" "Fleet" .critical "Daily burn-rate critical" "burn_daily") ∧
      (totalCost / st.thresholds.DailyBudgetUSD * 100 < 100 →
        dailyBurnRate totalCost st.thresholds.DailyBudgetUSD t < burnCritical →
        dailyBurnRate totalCost st.thresholds.DailyBudgetUSD t ≥ burnWarn →
        checkFleetDaily st t totalCost burnWarn burnCritical warnPercent
          = addAlert st t.nowNs "fleet" "Fleet" .warning "Daily burn-rate high" "burn_daily") ∧
      (totalCost / st.thresholds.DailyBudgetUSD * 100 < 100 →
        dailyBurnRate totalCost st.thresholds.DailyBudgetUSD t < burnCritical →
        dailyBurnRate totalCost st.thresholds.DailyBudgetUSD t < burnWarn →
        totalCost / st.thresholds.DailyBudgetUSD * 100 ≥ warnPercent →
        checkFleetDaily st t totalCost burnWarn burnCritical warnPercent
          = addAlert st t.nowNs "fleet" "Fleet" .warning "Daily budget high usage" "budget_daily") ∧
      (totalCost / st.thresholds.DailyBudgetUSD * 100 < 100 →
        dailyBurnRate totalCost st.thresholds.DailyBudgetUSD t < burnCritical →
        dailyBurnRate totalCost st.thresholds.DailyBudgetUSD t < burnWarn →
        totalCost / st.thresholds.DailyBudgetUSD * 100 < warnPercent →
        checkFleetDaily st t totalCost burnWarn burnCritical warnPercent = st)) ∧
    (∀ (st : AlertMonitorState) (t : FleetClock)
        (totalCost burnWarn burnCritical warnPercent : ℚ),
      (totalCost / st.thresholds.MonthlyBudgetUSD * 100 ≥ 100 →
        checkFleetMonthly st t totalCost burnWarn burnCritical warnPercent
          = addAlert st t.nowNs "fleet" "Fleet" .critical "Monthly budget exceeded" "budget_monthly") ∧
      (totalCost / st.thresholds.MonthlyBudgetUSD * 100 < 100 →
        monthlyBurnRate totalCost st.thresholds.MonthlyBudgetUSD t ≥ burnCritical →
        checkFleetMonthly st t totalCost burnWarn burnCritical warnPercent
          = addAlert st t.nowNs "fleet" "Fleet" .critical "Monthly burn-rate critical" "burn_monthly") ∧
      (totalCost / st.thresholds.MonthlyBudgetUSD * 100 < 100 →
        monthlyBurnRate totalCost st.thresholds.MonthlyBudgetUSD t < burnCritical →
        monthlyBurnRate totalCost st.thresholds.MonthlyBudgetUSD t ≥ burnWarn →
        checkFleetMonthly st t totalCost burnWarn burnCritical warnPercent
          = addAlert st t.nowNs "fleet" "Fleet" .warning "Monthly burn-rate high" "burn_monthly") ∧
      (totalCost / st.thresholds.MonthlyBudgetUSD * 100 < 100 →
        monthlyBurnRate totalCost st.thresholds.MonthlyBudgetUSD t < burnCritical →
        monthlyBurnRate totalCost st.thresholds.MonthlyBudgetUSD t < burnWarn →
        totalCost / st.thresholds.MonthlyBudgetUSD * 100 ≥ warnPercent →
        checkFleetMonthly st t totalCost burnWarn burnCritical warnPercent
          = addAlert st t.nowNs "fleet" "Fleet" .warning "Monthly budget high usage" "budget_monthly") ∧
      (totalCost / st.thresholds.MonthlyBudgetUSD * 100 < 100 →
        monthlyBurnRate totalCost st.thresholds.MonthlyBudgetUSD t < burnCritical →
        monthlyBurnRate totalCost st.thresholds.MonthlyBudgetUSD t < burnWarn →
        totalCost / st.thresholds.MonthlyBudgetUSD * 100 < warnPercent →
        checkFleetMonthly st t totalCost burnWarn burnCritical warnPercent = st)) ∧
    (∀ (st : AlertMonitorState) (agents : List AgentInstance) (t : FleetClock),
      agents ≠ [] →
      0 < st.thresholds.DailyBudgetUSD →
      st.thresholds.MonthlyBudgetUSD ≤ 0 →
      5 * 60 ≤ t.dayElapsedSec →
      (if st.thresholds.BurnRateCritical ≤ 0 then 3 else st.thresholds.BurnRateCritical)
        ≤ dailyBurnRate ((agents.map fun a => a.Tokens.EstCost).sum)
            st.thresholds.DailyBudgetUSD t →
      ((agents.map fun a => a.Tokens.EstCost).sum) / st.thresholds.DailyBudgetUSD * 100 < 100 →
      goLookup ("fleet" ++ ":" ++ "burn_daily") st.alerted = Option.none →
      (CheckFleet st agents t).alerts
        = truncAlerts st.maxAlerts
            (st.alerts ++ [⟨t.nowNs, .critical, "fleet", "Fleet", "Daily burn-rate critical"⟩])) := by
  have hdaily : ∀ (st : AlertMonitorState) (t : FleetClock)
      (totalCost burnWarn burnCritical warnPercent : ℚ),
      totalCost / st.thresholds.DailyBudgetUSD * 100 < 100 →
      dailyBurnRate totalCost st.thresholds.DailyBudgetUSD t ≥ burnCritical →
      checkFleetDaily st t totalCost burnWarn burnCritical warnPercent
        = addAlert st t.nowNs "fleet" "Fleet" .critical "Daily burn-rate critical" "burn_daily" := by
    intro st t totalCost burnWarn burnCritical warnPercent h1 h2
    simp only [checkFleetDaily]
    rw [if_neg (not_le.mpr h1), if_pos h2]
  refine ⟨fun st t totalCost burnWarn burnCritical warnPercent =>
      ⟨fun h1 => ?_, hdaily st t totalCost burnWarn burnCritical warnPercent,
       fun h1 h2 h3 => ?_, fun h1 h2 h3 h4 => ?_, fun h1 h2 h3 h4 => ?_⟩,
    fun st t totalCost burnWarn burnCritical warnPercent =>
      ⟨fun h1 => ?_, fun h1 h2 => ?_, fun h1 h2 h3 => ?_,
       fun h1 h2 h3 h4 => ?_, fun h1 h2 h3 h4 => ?_⟩,
    fun st agents t hne hd hm hfloor hburn husage hlook => ?_⟩
  · simp only [checkFleetDaily]
    rw [if_pos h1]
  · simp only [checkFleetDaily]
    rw [if_neg (not_le.mpr h1), if_neg (not_le.mpr h2), if_pos h3]
  · simp only [checkFleetDaily]
    rw [if_neg (not_le.mpr h1), if_neg (not_le.mpr h2), if_neg (not_le.mpr h3), if_pos h4]
  · simp only [checkFleetDaily]
    rw [if_neg (not_le.mpr h1), if_neg (not_le.mpr h2), if_neg (not_le.mpr h3),
      if_neg (not_le.mpr h4)]
  · simp only [checkFleetMonthly]
    rw [if_pos h1]
  · simp only [checkFleetMonthly]
    rw [if_neg (not_le.mpr h1), if_pos h2]
  · simp only [checkFleetMonthly]
    rw [if_neg (not_le.mpr h1), if_neg (not_le.mpr h2), if_pos h3]
  · simp only [checkFleetMonthly]
    rw [if_neg (not_le.mpr h1), if_neg (not_le.mpr h2), if_neg (not_le.mpr h3), if_pos h4]
  · simp only [checkFleetMonthly]
    rw [if_neg (not_le.mpr h1), if_neg (not_le.mpr h2), if_neg (not_le.mpr h3),
      if_neg (not_le.mpr h4)]
  · have hfleet : CheckFleet st agents t
        = checkFleetDaily st t ((agents.map fun a => a.Tokens.EstCost).sum)
            (if st.thresholds.BurnRateWarning ≤ 0 then 2 else st.thresholds.BurnRateWarning)
            (if st.thresholds.BurnRateCritical ≤ 0 then 3 else st.thresholds.BurnRateCritical)
            (if st.thresholds.BudgetWarnPercent ≤ 0 ∨ st.thresholds.BudgetWarnPercent ≥ 100
              then 80 else st.thresholds.BudgetWarnPercent) := by
      simp only [CheckFleet]
      rw [if_neg (by simpa using hne), if_neg (by
        intro hcontra
        exact absurd hcontra.1 (not_le.mpr hd)), if_pos hd, if_neg (not_lt.mpr hm)]
    rw [hfleet, hdaily st t _ _ _ _ husage hburn]
    rw [addAlert_fires st t.nowNs "fleet" "Fleet" .critical "Daily burn-rate critical"
      "burn_daily" (Or.inl hlook)]
    rfl

/-- Witness for C5: default thresholds with a daily budget of 10, one
agent whose accumulated cost is 5, one hour into the day: usage is 50%,
the expected spend so far is 10/24, the burn rate is 12 ≥ 3, and a
critical daily burn-rate alert is stored. -/
theorem fleet_burn_priority_witness :
    (CheckFleet (NewAlertMonitor { DefaultThresholds with DailyBudgetUSD := 10 })
        [{ ID := "a1", Name := "A1", Tokens := { EstCost := 5 } }]
        ⟨100, 3600, 0, 2592000⟩).alerts
      = [⟨100, .critical, "fleet", "Fleet", "Daily burn-rate critical"⟩] ∧
    checkFleetDaily (NewAlertMonitor { DefaultThresholds with DailyBudgetUSD := 10 })
        ⟨100, 3600, 0, 2592000⟩ 5 2 3 80
      = addAlert (NewAlertMonitor { DefaultThresholds with DailyBudgetUSD := 10 })
          100 "fleet" "Fleet" .critical "Daily burn-rate critical" "burn_daily" := by
  constructor
  · rw [fleet_burn_priority.2.2 (NewAlertMonitor { DefaultThresholds with DailyBudgetUSD := 10 })
      [{ ID := "a1", Name := "A1", Tokens := { EstCost := 5 } }]
      ⟨100, 3600, 0, 2592000⟩ (List.cons_ne_nil _ _)
      (by with_unfolding_all decide) (by with_unfolding_all decide)
      (by with_unfolding_all decide) (by with_unfolding_all decide)
      (by with_unfolding_all decide) rfl]
    with_unfolding_all decide
  · exact (fleet_burn_priority.1 (NewAlertMonitor { DefaultThresholds with DailyBudgetUSD := 10 })
      ⟨100, 3600, 0, 2592000⟩ 5 2 3 80).2.1
      (by with_unfolding_all decide) (by with_unfolding_all decide)

/-! ## C6: longest case-insensitive substring match in pricing resolution -/

theorem bestMatch_fold (model : List Nat) (l : List (String × ModelPricing)) :
    ∀ acc : String,
      acc.length ≤ (l.foldl (bestMatchStep model) acc).length ∧
      ((l.foldl (bestMatchStep model) acc) = acc ∨
        ((l.foldl (bestMatchStep model) acc) ∈ l.map Prod.fst ∧
         (l.foldl (bestMatchStep model) acc) ≠ "default" ∧
         keyMatches model (l.foldl (bestMatchStep model) acc) = true)) ∧
      (∀ kv ∈ l, kv.1 ≠ "default" → keyMatches model kv.1 = true →
        kv.1.length ≤ (l.foldl (bestMatchStep model) acc).length) := by
  induction l with
  | nil =>
    intro acc
    exact ⟨le_refl _, Or.inl rfl, by simp⟩
  | cons kv t ih =>
    intro acc
    have hres : (kv :: t).foldl (bestMatchStep model) acc
        = t.foldl (bestMatchStep model) (bestMatchStep model acc kv) := rfl
    have hlift : ∀ s, s ∈ t.map Prod.fst → s ∈ (kv :: t).map Prod.fst := by
      intro s hs
      simp only [List.map_cons, List.mem_cons]
      exact Or.inr hs
    by_cases hdef : kv.1 = "default"
    · have hacc : bestMatchStep model acc kv = acc := by simp [bestMatchStep, hdef]
      rw [hres, hacc]
      obtain ⟨ih1, ih2, ih3⟩ := ih acc
      refine ⟨ih1, ?_, ?_⟩
      · rcases ih2 with h | ⟨hm, hd, hk⟩
        · exact Or.inl h
        · exact Or.inr ⟨hlift _ hm, hd, hk⟩
      · intro kv2 hm2 hd2 hk2
        rcases List.mem_cons.mp hm2 with rfl | hm2
        · exact absurd hdef hd2
        · exact ih3 kv2 hm2 hd2 hk2
    · by_cases hmatch : keyMatches model kv.1 = true
      · by_cases hlen : kv.1.length > acc.length
        · have hacc : bestMatchStep model acc kv = kv.1 := by
            simp [bestMatchStep, hdef, hmatch, hlen]
          rw [hres, hacc]
          obtain ⟨ih1, ih2, ih3⟩ := ih kv.1
          refine ⟨le_trans (le_of_lt hlen) ih1, ?_, ?_⟩
          · rcases ih2 with h | ⟨hm, hd, hk⟩
            · rw [h]
              exact Or.inr ⟨by simp, hdef, hmatch⟩
            · exact Or.inr ⟨hlift _ hm, hd, hk⟩
          · intro kv2 hm2 hd2 hk2
            rcases List.mem_cons.mp hm2 with rfl | hm2
            · exact ih1
            · exact ih3 kv2 hm2 hd2 hk2
        · have hacc : bestMatchStep model acc kv = acc := by
            simp [bestMatchStep, hdef, hmatch, hlen]
          rw [hres, hacc]
          obtain ⟨ih1, ih2, ih3⟩ := ih acc
          refine ⟨ih1, ?_, ?_⟩
          · rcases ih2 with h | ⟨hm, hd, hk⟩
            · exact Or.inl h
            · exact Or.inr ⟨hlift _ hm, hd, hk⟩
          · intro kv2 hm2 hd2 hk2
            rcases List.mem_cons.mp hm2 with rfl | hm2
            · exact le_trans (not_lt.mp hlen) ih1
            · exact ih3 kv2 hm2 hd2 hk2
      · have hacc : bestMatchStep model acc kv = acc := by
          simp [bestMatchStep, hdef, hmatch]
        rw [hres, hacc]
        obtain ⟨ih1, ih2, ih3⟩ := ih acc
        refine ⟨ih1, ?_, ?_⟩
        · rcases ih2 with h | ⟨hm, hd, hk⟩
          · exact Or.inl h
          · exact Or.inr ⟨hlift _ hm, hd, hk⟩
        · intro kv2 hm2 hd2 hk2
          rcases List.mem_cons.mp hm2 with rfl | hm2
          · exact absurd hk2 hmatch
          · exact ih3 kv2 hm2 hd2 hk2

/-- C6: `FindPricing` on a name that is no exact table key compares it
case-insensitively as a substring in both directions against every
non-default key and returns the pricing of a longest matching key
(`cost.go:64-78`); in particular the `-latest` and dated variants of
canonical keys resolve to the canonical key's pricing. -/
theorem findPricing_longest_substring :
    (∀ model : String,
      model ≠ "" →
      goLookup model ModelPrices = Option.none →
      (∃ kv ∈ ModelPrices, kv.1 ≠ "default" ∧ keyMatches (goBytes model) kv.1 = true) →
      ∃ key, key ∈ ModelPrices.map Prod.fst ∧ key ≠ "default" ∧
        keyMatches (goBytes model) key = true ∧
        FindPricing model = priceOf key ∧
        (∀ kv ∈ ModelPrices, kv.1 ≠ "default" → keyMatches (goBytes model) kv.1 = true →
          kv.1.length ≤ key.length)) ∧
    FindPricing "claude-3.5-sonnet-latest" = FindPricing "claude-3.5-sonnet" ∧
    FindPricing "GPT-4-Turbo-2024-04-09" = FindPricing "gpt-4-turbo" ∧
    FindPricing "gemini-1.5-pro-002" = FindPricing "gemini-1.5-pro" := by
  refine ⟨?_, by with_unfolding_all decide, by with_unfolding_all decide,
    by with_unfolding_all decide⟩
  intro model hne hlookup ⟨kv0, hkv0mem, hkv0def, hkv0match⟩
  obtain ⟨h1, h2, h3⟩ := bestMatch_fold (goBytes model) ModelPrices ""
  have hkeylens : ∀ k ∈ ModelPrices.map Prod.fst, 1 ≤ k.length := by decide
  have hkv0len : 1 ≤ kv0.1.length :=
    hkeylens kv0.1 (List.mem_map_of_mem Prod.fst hkv0mem)
  have hbestlen : 1 ≤ (findBestMatch (goBytes model)).length :=
    le_trans hkv0len (h3 kv0 hkv0mem hkv0def hkv0match)
  have hbestne : findBestMatch (goBytes model) ≠ "" := by
    intro h
    rw [h] at hbestlen
    simp at hbestlen
  rcases h2 with h | ⟨hmem, hdef, hmatch⟩
  · exact absurd h hbestne
  · refine ⟨findBestMatch (goBytes model), hmem, hdef, hmatch, ?_,
      fun kv hm hd hk => h3 kv hm hd hk⟩
    simp only [FindPricing, hlookup, if_neg hne]
    rw [if_pos hbestne]

/-- Witness for C6: `"claude-3.5-sonnet-latest"` is not an exact key; the
matching scan selects a longest matching non-default key and returns its
pricing. -/
theorem findPricing_longest_substring_witness :
    ∃ key, key ∈ ModelPrices.map Prod.fst ∧ key ≠ "default" ∧
      keyMatches (goBytes "claude-3.5-sonnet-latest") key = true ∧
      FindPricing "claude-3.5-sonnet-latest" = priceOf key ∧
      (∀ kv ∈ ModelPrices, kv.1 ≠ "default" →
        keyMatches (goBytes "claude-3.5-sonnet-latest") kv.1 = true →
        kv.1.length ≤ key.length) :=
  findPricing_longest_substring.1 "claude-3.5-sonnet-latest"
    (by with_unfolding_all decide) (by with_unfolding_all decide)
    ⟨("claude-3.5-sonnet", ⟨3.00, 15.00⟩), by with_unfolding_all decide,
      by with_unfolding_all decide, by with_unfolding_all decide⟩

/-! ## C7: tailing is idempotent -/

theorem parseCopilotLog_at_eof (matchFn : String → Option CopilotReqMatch)
    (path : String) (content : List Char) (offsets seen : List (String × Int))
    (now : Int) (m : TokenMetrics)
    (h : goLookup path offsets = some (content.length : Int)) :
    (parseCopilotLog matchFn path content offsets seen now m).1.InputTokens
        = m.InputTokens ∧
    (parseCopilotLog matchFn path content offsets seen now m).1.OutputTokens
        = m.OutputTokens ∧
    (parseCopilotLog matchFn path content offsets seen now m).1.TotalTokens
        = m.TotalTokens ∧
    (parseCopilotLog matchFn path content offsets seen now m).1.RequestCount
        = m.RequestCount := by
  simp only [parseCopilotLog, h, Option.getD_some, Int.toNat_natCast, List.drop_length]
  exact ⟨recomputeRate_InputTokens now m, recomputeRate_OutputTokens now m,
    recomputeRate_TotalTokens now m, recomputeRate_RequestCount now m⟩

theorem parseClaudeJSONL_at_eof (decode : String → Option ClaudeMessage)
    (path : String) (content : List Char) (offsets seen : List (String × Int))
    (now : Int) (m : TokenMetrics)
    (h : goLookup path offsets = some (content.length : Int)) :
    (parseClaudeJSONL decode path content offsets seen now m).1.InputTokens
        = m.InputTokens ∧
    (parseClaudeJSONL decode path content offsets seen now m).1.OutputTokens
        = m.OutputTokens ∧
    (parseClaudeJSONL decode path content offsets seen now m).1.TotalTokens
        = m.TotalTokens ∧
    (parseClaudeJSONL decode path content offsets seen now m).1.RequestCount
        = m.RequestCount := by
  simp only [parseClaudeJSONL, h, Option.getD_some, Int.toNat_natCast, List.drop_length]
  exact ⟨recomputeRate_InputTokens now m, recomputeRate_OutputTokens now m,
    recomputeRate_TotalTokens now m, recomputeRate_RequestCount now m⟩

theorem parseAiderHistory_at_eof (matchFn : String → Option (String × String))
    (path : String) (content : List Char) (offsets seen : List (String × Int))
    (now : Int) (m : TokenMetrics)
    (h : goLookup path offsets = some (content.length : Int)) :
    (parseAiderHistory matchFn path content offsets seen now m).1 = m := by
  simp only [parseAiderHistory, h, Option.getD_some, Int.toNat_natCast, List.drop_length]
  rfl

/-- C7: tailing is idempotent for all three file-based collectors: a
second parse of the same file contents — the persisted offset having been
advanced to end-of-file by the first parse — scans no lines and leaves
`InputTokens`, `OutputTokens`, `TotalTokens` and `RequestCount` unchanged
(`tokens.go:246-324`, `tokens.go:379-444`, `tokens.go:619-670`), for every
matcher/decoder the external regex/JSON engines could implement. -/
theorem tailing_idempotent :
    (∀ (matchFn : String → Option CopilotReqMatch) (path : String)
        (content : List Char) (offsets seen : List (String × Int))
        (t1 t2 : Int) (m : TokenMetrics),
      (parseCopilotLog matchFn path content
          (parseCopilotLog matchFn path content offsets seen t1 m).2.1
          (parseCopilotLog matchFn path content offsets seen t1 m).2.2.1 t2
          (parseCopilotLog matchFn path content offsets seen t1 m).1).1.InputTokens
        = (parseCopilotLog matchFn path content offsets seen t1 m).1.InputTokens ∧
      (parseCopilotLog matchFn path content
          (parseCopilotLog matchFn path content offsets seen t1 m).2.1
          (parseCopilotLog matchFn path content offsets seen t1 m).2.2.1 t2
          (parseCopilotLog matchFn path content offsets seen t1 m).1).1.OutputTokens
        = (parseCopilotLog matchFn path content offsets seen t1 m).1.OutputTokens ∧
      (parseCopilotLog matchFn path content
          (parseCopilotLog matchFn path content offsets seen t1 m).2.1
          (parseCopilotLog matchFn path content offsets seen t1 m).2.2.1 t2
          (parseCopilotLog matchFn path content offsets seen t1 m).1).1.TotalTokens
        = (parseCopilotLog matchFn path content offsets seen t1 m).1.TotalTokens ∧
      (parseCopilotLog matchFn path content
          (parseCopilotLog matchFn path content offsets seen t1 m).2.1
          (parseCopilotLog matchFn path content offsets seen t1 m).2.2.1 t2
          (parseCopilotLog matchFn path content offsets seen t1 m).1).1.RequestCount
        = (parseCopilotLog matchFn path content offsets seen t1 m).1.RequestCount) ∧
    (∀ (decode : String → Option ClaudeMessage) (path : String)
        (content : List Char) (offsets seen : List (String × Int))
        (t1 t2 : Int) (m : TokenMetrics),
      (parseClaudeJSONL decode path content
          (parseClaudeJSONL decode path content offsets seen t1 m).2.1
          (parseClaudeJSONL decode path content offsets seen t1 m).2.2.1 t2
          (parseClaudeJSONL decode path content offsets seen t1 m).1).1.InputTokens
        = (parseClaudeJSONL decode path content offsets seen t1 m).1.InputTokens ∧
      (parseClaudeJSONL decode path content
          (parseClaudeJSONL decode path content offsets seen t1 m).2.1
          (parseClaudeJSONL decode path content offsets seen t1 m).2.2.1 t2
          (parseClaudeJSONL decode path content offsets seen t1 m).1).1.OutputTokens
        = (parseClaudeJSONL decode path content offsets seen t1 m).1.OutputTokens ∧
      (parseClaudeJSONL decode path content
          (parseClaudeJSONL decode path content offsets seen t1 m).2.1
          (parseClaudeJSONL decode path content offsets seen t1 m).2.2.1 t2
          (parseClaudeJSONL decode path content offsets seen t1 m).1).1.TotalTokens
        = (parseClaudeJSONL decode path content offsets seen t1 m).1.TotalTokens ∧
      (parseClaudeJSONL decode path content
          (parseClaudeJSONL decode path content offsets seen t1 m).2.1
          (parseClaudeJSONL decode path content offsets seen t1 m).2.2.1 t2
          (parseClaudeJSONL decode path content offsets seen t1 m).1).1.RequestCount
        = (parseClaudeJSONL decode path content offsets seen t1 m).1.RequestCount) ∧
    (∀ (matchFn : String → Option (String × String)) (path : String)
        (content : List Char) (offsets seen : List (String × Int))
        (t1 t2 : Int) (m : TokenMetrics),
      (parseAiderHistory matchFn path content
          (parseAiderHistory matchFn path content offsets seen t1 m).2.1
          (parseAiderHistory matchFn path content offsets seen t1 m).2.2.1 t2
          (parseAiderHistory matchFn path content offsets seen t1 m).1).1
        = (parseAiderHistory matchFn path content offsets seen t1 m).1) := by
  refine ⟨fun matchFn path content offsets seen t1 t2 m => ?_,
    fun decode path content offsets seen t1 t2 m => ?_,
    fun matchFn path content offsets seen t1 t2 m => ?_⟩
  · exact parseCopilotLog_at_eof matchFn path content _ _ t2 _
      (goLookup_goInsert_self path (content.length : Int) offsets)
  · exact parseClaudeJSONL_at_eof decode path content _ _ t2 _
      (goLookup_goInsert_self path (content.length : Int) offsets)
  · exact parseAiderHistory_at_eof matchFn path content _ _ t2 _
      (goLookup_goInsert_self path (content.length : Int) offsets)

/-! ## C9: `TotalTokens = InputTokens + OutputTokens` after every mutation -/

theorem recomputeRate_invariant (now : Int) (m : TokenMetrics)
    (h : tokenInvariant m) : tokenInvariant (recomputeRate now m) := by
  unfold tokenInvariant
  rw [recomputeRate_TotalTokens, recomputeRate_InputTokens, recomputeRate_OutputTokens]
  exact h

theorem copilotLineStep_invariant (now : Int) (m : TokenMetrics) (mt : CopilotReqMatch) :
    tokenInvariant (copilotLineStep now m mt) := rfl

theorem parseCopilotLog_invariant (matchFn : String → Option CopilotReqMatch)
    (path : String) (content : List Char) (offsets seen : List (String × Int))
    (now : Int) (m : TokenMetrics) (h : tokenInvariant m) :
    tokenInvariant (parseCopilotLog matchFn path content offsets seen now m).1 := by
  have hfold : ∀ (lines : List String) (acc : TokenMetrics × Int), tokenInvariant acc.1 →
      tokenInvariant ((lines.foldl
        (fun (acc : TokenMetrics × Int) line =>
          match matchFn line with
          | Option.none => acc
          | some mt => (copilotLineStep now acc.1 mt, acc.2 + 1)) acc).1) := by
    intro lines
    induction lines with
    | nil => exact fun acc hacc => hacc
    | cons l ls ih =>
      intro acc hacc
      simp only [List.foldl_cons]
      apply ih
      cases hm : matchFn l with
      | none => simpa [hm] using hacc
      | some mt => simpa [hm] using copilotLineStep_invariant now acc.1 mt
  exact recomputeRate_invariant now _ (hfold _ (m, 0) h)

theorem parseClaudeJSONL_invariant (decode : String → Option ClaudeMessage)
    (path : String) (content : List Char) (offsets seen : List (String × Int))
    (now : Int) (m : TokenMetrics) (h : tokenInvariant m) :
    tokenInvariant (parseClaudeJSONL decode path content offsets seen now m).1 := by
  have hfold : ∀ (lines : List String) (acc : TokenMetrics × Int), tokenInvariant acc.1 →
      tokenInvariant ((lines.foldl
        (fun (acc : TokenMetrics × Int) line =>
          if line.trim = "" then acc
          else
            match decode line with
            | Option.none => acc
            | some msg =>
              if msg.type = "assistant" ∧ msg.inputTokens > 0 then
                let m := acc.1
                let m := { m with InputTokens := m.InputTokens + msg.inputTokens,
                                  OutputTokens := m.OutputTokens + msg.outputTokens }
                let m := { m with TotalTokens := m.InputTokens + m.OutputTokens,
                                  RequestCount := m.RequestCount + 1, LastRequestAt := now }
                let m := if msg.model ≠ "" then { m with LastModel := msg.model } else m
                (m, acc.2 + 1)
              else acc) acc).1) := by
    intro lines
    induction lines with
    | nil => exact fun acc hacc => hacc
    | cons l ls ih =>
      intro acc hacc
      simp only [List.foldl_cons]
      apply ih
      split
      · exact hacc
      · split
        · exact hacc
        · split
          · dsimp only
            split <;> rfl
          · exact hacc
  exact recomputeRate_invariant now _ (hfold _ (m, 0) h)

theorem parseAiderHistory_invariant (matchFn : String → Option (String × String))
    (path : String) (content : List Char) (offsets seen : List (String × Int))
    (now : Int) (m : TokenMetrics) (h : tokenInvariant m) :
    tokenInvariant (parseAiderHistory matchFn path content offsets seen now m).1 := by
  have hfold : ∀ (lines : List String) (acc : TokenMetrics × Bool), tokenInvariant acc.1 →
      tokenInvariant ((lines.foldl
        (fun (acc : TokenMetrics × Bool) line =>
          match matchFn line with
          | Option.none => acc
          | some groups =>
            let sent := parseTokenCount groups.1
            let recv := parseTokenCount groups.2
            let m := acc.1
            let m := { m with InputTokens := m.InputTokens + sent,
                              OutputTokens := m.OutputTokens + recv }
            let m := { m with TotalTokens := m.InputTokens + m.OutputTokens,
                              RequestCount := m.RequestCount + 1, LastRequestAt := now,
                              LastModel := "aider" }
            (m, true)) acc).1) := by
    intro lines
    induction lines with
    | nil => exact fun acc hacc => hacc
    | cons l ls ih =>
      intro acc hacc
      simp only [List.foldl_cons]
      apply ih
      split
      · exact hacc
      · rfl
  exact hfold _ (m, false) h

theorem parseCursorDBApply_invariant (parsed : cursorDBParseResult) (now : Int)
    (m : TokenMetrics) (h : tokenInvariant m) :
    tokenInvariant (parseCursorDBApply parsed now m).1 := by
  unfold parseCursorDBApply
  split
  · dsimp only
    split <;> rfl
  · exact h

theorem collectCursorFromDB_invariant (parsed : cursorDBParseResult) (now : Int)
    (m : TokenMetrics) (h : tokenInvariant m) :
    tokenInvariant (collectCursorFromDB parsed now m) := by
  unfold collectCursorFromDB
  dsimp only
  split
  · exact parseCursorDBApply_invariant parsed now m h
  · exact parseCursorDBApply_invariant parsed now m h

theorem collectFromNetwork_invariant (bytes pid now : Int)
    (pb ps : List (Int × Int)) (m : TokenMetrics) (h : tokenInvariant m) :
    tokenInvariant (collectFromNetwork bytes pid now pb ps m).1 := by
  unfold collectFromNetwork
  split
  · exact h
  · dsimp only
    split
    · exact h
    · split <;> rfl

/-- C9: the invariant `TotalTokens = InputTokens + OutputTokens` holds for
the freshly initialized metrics and is preserved by every mutation each
collector performs — the Copilot log scan, the Claude JSONL scan, the
Aider history scan, the Cursor DB update (in both its exact and its
estimated branch, and after `collectCursor`'s `Source` overwrite), the
network estimator, and the cost/confidence finalization — hence it holds
after every `Collect` cycle (`tokens.go:137` and the cited mutation
sites). -/
theorem token_total_invariant :
    tokenInvariant ({} : TokenMetrics) ∧
    (∀ (matchFn : String → Option CopilotReqMatch) (path : String)
        (content : List Char) (offsets seen : List (String × Int))
        (now : Int) (m : TokenMetrics), tokenInvariant m →
      tokenInvariant (parseCopilotLog matchFn path content offsets seen now m).1) ∧
    (∀ (decode : String → Option ClaudeMessage) (path : String)
        (content : List Char) (offsets seen : List (String × Int))
        (now : Int) (m : TokenMetrics), tokenInvariant m →
      tokenInvariant (parseClaudeJSONL decode path content offsets seen now m).1) ∧
    (∀ (matchFn : String → Option (String × String)) (path : String)
        (content : List Char) (offsets seen : List (String × Int))
        (now : Int) (m : TokenMetrics), tokenInvariant m →
      tokenInvariant (parseAiderHistory matchFn path content offsets seen now m).1) ∧
    (∀ (parsed : cursorDBParseResult) (now : Int) (m : TokenMetrics), tokenInvariant m →
      tokenInvariant (parseCursorDBApply parsed now m).1 ∧
      tokenInvariant (collectCursorFromDB parsed now m)) ∧
    (∀ (bytes pid now : Int) (pb ps : List (Int × Int)) (m : TokenMetrics),
      tokenInvariant m →
      tokenInvariant (collectFromNetwork bytes pid now pb ps m).1) ∧
    (∀ m : TokenMetrics, tokenInvariant m → tokenInvariant (collectFinalize m)) :=
  ⟨rfl, parseCopilotLog_invariant, parseClaudeJSONL_invariant, parseAiderHistory_invariant,
   fun parsed now m h => ⟨parseCursorDBApply_invariant parsed now m h,
     collectCursorFromDB_invariant parsed now m h⟩,
   collectFromNetwork_invariant, fun _ h => h⟩

/-- Witness for C9 at concrete collector runs starting from the freshly
initialized metrics. -/
theorem token_total_invariant_witness :
    tokenInvariant (parseCursorDBApply { RequestCount := 2 } 7 {}).1 ∧
    tokenInvariant (collectCursorFromDB { RequestCount := 2 } 7 {}) ∧
    tokenInvariant (collectFromNetwork 180 1 9 [(1, 100)] [] {}).1 :=
  ⟨(token_total_invariant.2.2.2.2.1 { RequestCount := 2 } 7 {} rfl).1,
   (token_total_invariant.2.2.2.2.1 { RequestCount := 2 } 7 {} rfl).2,
   token_total_invariant.2.2.2.2.2.1 180 1 9 [(1, 100)] [] {} rfl⟩
